import Mathlib

/-!
Shallow embedding of the gowitness `server` command's HTTP handler
(`cmd/server.go`, function `handler`) and proofs about its request
validation, security policy and response behaviour.

The browser capture backend (`chrm.Screenshot`), the URL parser
(`net/url.Parse`), the image decoder (`image.Decode`), the resizer
(`imaging.Fit`) and the JPEG encoder (`jpeg.Encode`) are external
collaborators of the code under study; they are embedded as parameters
(the `Backends` structure), so every theorem quantifies over their
behaviour.  `jpeg.Encode` streams into the `http.ResponseWriter`, so its
embedding returns the byte chunk it wrote together with an optional
error.

The `http.ResponseWriter` is embedded as the `RW` structure: the status
code and the Content-Type header are latched when the header block is
first sent (an explicit `WriteHeader`, or implicitly by the first body
write), matching `net/http` semantics; later `WriteHeader` calls are
no-ops.
-/

namespace Gowitness

/-- Bytes of an HTTP body, modelled as natural numbers. -/
abbrev Bytes := List Nat

/-- The bytes of a string (one per character, by code point). -/
def strBytes (s : String) : Bytes := s.data.map Char.toNat

/-- A parsed URL as the handler uses it: `net/url.URL` restricted to the
fields the handler reads (`Scheme`) plus an opaque remainder that is
passed through to the capture backend. -/
structure GoURL where
  scheme : String
  rest : String
deriving Repr, DecidableEq

/-- An opaque decoded pixel buffer (`image.Image`); the handler never
inspects it, it only threads it from `image.Decode` through
`imaging.Fit` into `jpeg.Encode`. -/
abbrev Img := Nat

/-- The process-wide options the handler reads (`options.AllowInsecureURIs`). -/
structure Config where
  allowInsecureURIs : Bool
deriving Repr, DecidableEq

/-- The query parameters of one inbound request, as raw strings
(`r.URL.Query().Get` returns `""` for an absent parameter). -/
structure Request where
  url : String
  width : String
  height : String
deriving Repr, DecidableEq

/-- The observable state of an `http.ResponseWriter`: the current
Content-Type header value, whether the header block has been sent, and
the latched status, Content-Type and accumulated body once sending
started. -/
structure RW where
  headerCT : String
  sent : Bool
  status : Nat
  sentCT : String
  body : Bytes
deriving Repr, DecidableEq

/-- A fresh response writer, before anything is written. -/
def RW.init : RW := ⟨"", false, 0, "", []⟩

/-- `w.Header().Set("Content-Type", ct)`. -/
def RW.setContentType (w : RW) (ct : String) : RW := { w with headerCT := ct }

/-- `w.WriteHeader(code)`: latches status and Content-Type; a no-op if
the header block was already sent. -/
def RW.writeHeader (w : RW) (code : Nat) : RW :=
  if w.sent then w else { w with sent := true, status := code, sentCT := w.headerCT }

/-- `w.Write(bs)`: sends the header block with status 200 if not yet
sent, then appends the bytes to the body. -/
def RW.write (w : RW) (bs : Bytes) : RW :=
  let w2 := w.writeHeader 200
  { w2 with body := w2.body ++ bs }

/-- Zero or more `Write` calls that in total wrote `bs`: touches the
writer only if at least one byte was written (used for the streaming
JPEG encoder, which performs no `Write` when it fails before producing
output). -/
def RW.writeAll (w : RW) (bs : Bytes) : RW :=
  if bs = [] then w else w.write bs

/-- `http.Error(w, msg, code)`: sets a plain-text Content-Type, writes
the header with `code`, and writes `msg` followed by a newline. -/
def httpError (w : RW) (msg : String) (code : Nat) : RW :=
  ((w.setContentType "text/plain; charset=utf-8").writeHeader code).write
    (strBytes msg ++ [10])

/-- `unicode.IsSpace`, the whitespace predicate used by
`strings.TrimSpace` (Latin-1 range plus the Unicode space characters). -/
def isSpaceGo (c : Char) : Bool :=
  [' ', '\t', '\n', '\u000B', '\u000C', '\r', '\u0085', '\u00A0',
    '\u1680', '\u2000', '\u2001', '\u2002', '\u2003', '\u2004', '\u2005',
    '\u2006', '\u2007', '\u2008', '\u2009', '\u200A', '\u2028', '\u2029',
    '\u202F', '\u205F', '\u3000'].contains c

/-- `strings.TrimSpace`: drop leading and trailing whitespace. -/
def trimSpace (s : String) : String :=
  ⟨((s.data.dropWhile isSpaceGo).reverse.dropWhile isSpaceGo).reverse⟩

/-- `strings.HasPrefix s p`: `p` is an initial segment of `s`. -/
def strHasPre (s p : String) : Bool := p.data.isPrefixOf s.data

/-- Numeric value of a list of decimal digit characters. -/
def digitsVal (ds : List Char) : Nat :=
  ds.foldl (fun acc c => acc * 10 + (c.toNat - 48)) 0

/-- `strconv.Atoi`: an optional sign followed by at least one decimal
digit; anything else is a parse error (`none`). -/
def atoi (s : String) : Option Int :=
  match s.data with
  | [] => none
  | c :: rest =>
    let p : Bool × List Char :=
      if c = '-' then (true, rest)
      else if c = '+' then (false, rest)
      else (false, c :: rest)
    if p.2 = [] then none
    else if p.2.all Char.isDigit then
      some (if p.1 then -(digitsVal p.2 : Int) else (digitsVal p.2 : Int))
    else none

/-- The effective value of a dimension parameter: the handler sets the
parsed value back to 0 when `Atoi` fails or the value is below 1
(`if err != nil || width < 1 { width = 0 }`). -/
def dim (s : String) : Int :=
  match atoi s with
  | some n => if n < 1 then 0 else n
  | none => 0

/-- The external collaborators the handler calls, as opaque functions:
`net/url.Parse`, `chrm.Screenshot`, `image.Decode`, `imaging.Fit`, and
`jpeg.Encode`.  The JPEG encoder streams into the writer, so it is
embedded as the chunk of bytes it wrote plus an optional error. -/
structure Backends where
  parseURL : String → Except String GoURL
  screenshot : GoURL → Except String Bytes
  decode : Bytes → Except String Img
  fit : Img → Int → Int → Img
  encodeJPEG : Img → Bytes × Option String

/-- The instrumented outcome of one request: the final response-writer
state, whether `chrm.Screenshot` was invoked, and with which target. -/
structure HResult where
  rw : RW
  captureInvoked : Bool
  captureTarget : Option GoURL
deriving Repr, DecidableEq

def msgMissingURL : String := "url parameter missing. eg ?url=https://google.com"

def msgWidthNoHeight : String := "received width option without height argument"

def msgHeightNoWidth : String := "received height option without width argument"

def msgInsecure : String := "only http(s) urls are accepted"

/-- The HTTP handler of `cmd/server.go` (`func handler`), embedded line
by line over the opaque backends, starting from a fresh response writer. -/
def handler (B : Backends) (cfg : Config) (r : Request) : HResult :=
  let w := RW.init
  let rawURL := trimSpace r.url
  if rawURL = "" then
    ⟨httpError w msgMissingURL 406, false, none⟩
  else
    let width := dim r.width
    let height := dim r.height
    if width > 0 ∧ height = 0 then
      ⟨httpError w msgWidthNoHeight 406, false, none⟩
    else if height > 0 ∧ width = 0 then
      ⟨httpError w msgHeightNoWidth 406, false, none⟩
    else
      match B.parseURL rawURL with
      | .error e => ⟨httpError w e 500, false, none⟩
      | .ok u =>
        if !cfg.allowInsecureURIs && !(strHasPre u.scheme "http") then
          ⟨httpError w msgInsecure 406, false, none⟩
        else
          match B.screenshot u with
          | .error e => ⟨httpError w e 500, true, some u⟩
          | .ok buf =>
            if width = 0 then
              ⟨(w.setContentType "image/png").write buf, true, some u⟩
            else
              match B.decode buf with
              | .error e => ⟨httpError w e 500, true, some u⟩
              | .ok img =>
                let dst := B.fit img width height
                let w2 := w.setContentType "image/jpeg"
                let enc := B.encodeJPEG dst
                let w3 := w2.writeAll enc.1
                match enc.2 with
                | some e => ⟨httpError w3 e 500, true, some u⟩
                | none => ⟨w3, true, some u⟩

/-- A response consisting of exactly one clean error: the given status,
the message plus a newline as the whole body, and a plain-text
Content-Type. -/
def isErrorResponse (w : RW) (msg : String) (code : Nat) : Prop :=
  w.status = code ∧ w.body = strBytes msg ++ [10] ∧
    w.sentCT = "text/plain; charset=utf-8"

/-! ## Concrete fixtures for witnesses and counterexamples -/

/-- A parse function agreeing with `net/url.Parse` on the concrete
inputs used by the witnesses: scheme split at the first `":"` with the
scheme lowercased, empty scheme when no `":"` precedes the first
non-scheme character, and a parse error otherwise. -/
def parseFix : String → Except String GoURL := fun s =>
  if s = "https://example.com" then .ok ⟨"https", "//example.com"⟩
  else if s = "httpx://example.com" then .ok ⟨"httpx", "//example.com"⟩
  else if s = "file:///etc/passwd" then .ok ⟨"file", "///etc/passwd"⟩
  else if s = "google.com" then .ok ⟨"", "google.com"⟩
  else .error "parse \"http://[bad\": missing \x7d in host"

/-- Backends whose calls all succeed. -/
def Bok : Backends :=
  ⟨parseFix, fun _ => .ok [137, 80, 78, 71], fun _ => .ok 7,
    fun i _ _ => i + 1, fun _ => ([255, 216], none)⟩

/-- Backends whose capture call fails. -/
def Bscr : Backends := { Bok with screenshot := fun _ => .error "chrome exited: crashed" }

/-- Backends whose JPEG encoder writes two bytes and then fails. -/
def Benc : Backends := { Bok with encodeJPEG := fun _ => ([9, 9], some "jpeg: write failed") }

def CfgDefault : Config := ⟨false⟩

def CfgRelax : Config := ⟨true⟩

def ReqPng : Request := ⟨"https://example.com", "", ""⟩

def ReqResize : Request := ⟨"https://example.com", "200", "100"⟩

def ReqHttpx : Request := ⟨"httpx://example.com", "", ""⟩

def ReqFile : Request := ⟨"file:///etc/passwd", "", ""⟩

def ReqBlank : Request := ⟨"   ", "200", "100"⟩

def ReqWidthOnly : Request := ⟨"https://example.com", "200", ""⟩

def ReqHeightOnly : Request := ⟨"https://example.com", "", "100"⟩

def ReqNoScheme : Request := ⟨"google.com", "", ""⟩

def ReqMal : Request := ⟨"http://[bad", "", ""⟩

def ReqMalDims : Request := ⟨"http://[bad", "5", ""⟩

/-! ## Branch characterisations of the handler -/

theorem dim_nonneg (s : String) : 0 ≤ dim s := by
  unfold dim
  cases atoi s with
  | none => simp
  | some n => dsimp only; split <;> omega

theorem httpError_init (msg : String) (code : Nat) :
    httpError RW.init msg code =
      ⟨"text/plain; charset=utf-8", true, code, "text/plain; charset=utf-8",
        strBytes msg ++ [10]⟩ := rfl

theorem isErrorResponse_httpError_init (msg : String) (code : Nat) :
    isErrorResponse (httpError RW.init msg code) msg code := ⟨rfl, rfl, rfl⟩

theorem handler_blank (B : Backends) (cfg : Config) (r : Request)
    (h1 : trimSpace r.url = "") :
    handler B cfg r = ⟨httpError RW.init msgMissingURL 406, false, none⟩ := by
  simp [handler, h1]

theorem handler_widthNoHeight (B : Backends) (cfg : Config) (r : Request)
    (h1 : trimSpace r.url ≠ "") (hw : dim r.width > 0) (hh : dim r.height = 0) :
    handler B cfg r = ⟨httpError RW.init msgWidthNoHeight 406, false, none⟩ := by
  simp [handler, h1, hw, hh]

theorem handler_heightNoWidth (B : Backends) (cfg : Config) (r : Request)
    (h1 : trimSpace r.url ≠ "") (hh : dim r.height > 0) (hw : dim r.width = 0) :
    handler B cfg r = ⟨httpError RW.init msgHeightNoWidth 406, false, none⟩ := by
  simp [handler, h1, hw, hh]

theorem handler_malformed (B : Backends) (cfg : Config) (r : Request) (e : String)
    (h1 : trimSpace r.url ≠ "")
    (h2 : ¬(dim r.width > 0 ∧ dim r.height = 0))
    (h3 : ¬(dim r.height > 0 ∧ dim r.width = 0))
    (hp : B.parseURL (trimSpace r.url) = .error e) :
    handler B cfg r = ⟨httpError RW.init e 500, false, none⟩ := by
  simp [handler, h1, h2, h3, hp]

theorem handler_insecure (B : Backends) (cfg : Config) (r : Request) (u : GoURL)
    (h1 : trimSpace r.url ≠ "")
    (h2 : ¬(dim r.width > 0 ∧ dim r.height = 0))
    (h3 : ¬(dim r.height > 0 ∧ dim r.width = 0))
    (hp : B.parseURL (trimSpace r.url) = .ok u)
    (hA : cfg.allowInsecureURIs = false)
    (hS : strHasPre u.scheme "http" = false) :
    handler B cfg r = ⟨httpError RW.init msgInsecure 406, false, none⟩ := by
  simp [handler, h1, h2, h3, hp, hA, hS]

theorem handler_scrErr (B : Backends) (cfg : Config) (r : Request) (u : GoURL) (e : String)
    (h1 : trimSpace r.url ≠ "")
    (h2 : ¬(dim r.width > 0 ∧ dim r.height = 0))
    (h3 : ¬(dim r.height > 0 ∧ dim r.width = 0))
    (hp : B.parseURL (trimSpace r.url) = .ok u)
    (hpass : cfg.allowInsecureURIs = true ∨ strHasPre u.scheme "http" = true)
    (hscr : B.screenshot u = .error e) :
    handler B cfg r = ⟨httpError RW.init e 500, true, some u⟩ := by
  rcases hpass with h | h <;> simp [handler, h1, h2, h3, hp, h, hscr]

theorem handler_png (B : Backends) (cfg : Config) (r : Request) (u : GoURL) (buf : Bytes)
    (h1 : trimSpace r.url ≠ "")
    (hw : dim r.width = 0) (hh : dim r.height = 0)
    (hp : B.parseURL (trimSpace r.url) = .ok u)
    (hpass : cfg.allowInsecureURIs = true ∨ strHasPre u.scheme "http" = true)
    (hscr : B.screenshot u = .ok buf) :
    handler B cfg r = ⟨(RW.init.setContentType "image/png").write buf, true, some u⟩ := by
  rcases hpass with h | h <;> simp [handler, h1, hw, hh, hp, h, hscr]

theorem handler_decodeErr (B : Backends) (cfg : Config) (r : Request) (u : GoURL)
    (buf : Bytes) (e : String)
    (h1 : trimSpace r.url ≠ "")
    (hw : dim r.width > 0) (hh : dim r.height > 0)
    (hp : B.parseURL (trimSpace r.url) = .ok u)
    (hpass : cfg.allowInsecureURIs = true ∨ strHasPre u.scheme "http" = true)
    (hscr : B.screenshot u = .ok buf)
    (hdec : B.decode buf = .error e) :
    handler B cfg r = ⟨httpError RW.init e 500, true, some u⟩ := by
  have hw0 : ¬(dim r.width = 0) := by omega
  have hh0 : ¬(dim r.height = 0) := by omega
  rcases hpass with h | h <;>
    simp [handler, h1, hw, hh, hw0, hh0, hp, h, hscr, hdec]

theorem handler_jpegFail (B : Backends) (cfg : Config) (r : Request) (u : GoURL)
    (buf : Bytes) (img : Img) (bs : Bytes) (e : String)
    (h1 : trimSpace r.url ≠ "")
    (hw : dim r.width > 0) (hh : dim r.height > 0)
    (hp : B.parseURL (trimSpace r.url) = .ok u)
    (hpass : cfg.allowInsecureURIs = true ∨ strHasPre u.scheme "http" = true)
    (hscr : B.screenshot u = .ok buf)
    (hdec : B.decode buf = .ok img)
    (henc : B.encodeJPEG (B.fit img (dim r.width) (dim r.height)) = (bs, some e)) :
    handler B cfg r =
      ⟨httpError ((RW.init.setContentType "image/jpeg").writeAll bs) e 500,
        true, some u⟩ := by
  have hw0 : ¬(dim r.width = 0) := by omega
  have hh0 : ¬(dim r.height = 0) := by omega
  rcases hpass with h | h <;>
    simp [handler, h1, hw, hh, hw0, hh0, hp, h, hscr, hdec, henc]

theorem handler_jpegOk (B : Backends) (cfg : Config) (r : Request) (u : GoURL)
    (buf : Bytes) (img : Img) (bs : Bytes)
    (h1 : trimSpace r.url ≠ "")
    (hw : dim r.width > 0) (hh : dim r.height > 0)
    (hp : B.parseURL (trimSpace r.url) = .ok u)
    (hpass : cfg.allowInsecureURIs = true ∨ strHasPre u.scheme "http" = true)
    (hscr : B.screenshot u = .ok buf)
    (hdec : B.decode buf = .ok img)
    (henc : B.encodeJPEG (B.fit img (dim r.width) (dim r.height)) = (bs, none)) :
    handler B cfg r =
      ⟨(RW.init.setContentType "image/jpeg").writeAll bs, true, some u⟩ := by
  have hw0 : ¬(dim r.width = 0) := by omega
  have hh0 : ¬(dim r.height = 0) := by omega
  rcases hpass with h | h <;>
    simp [handler, h1, hw, hh, hw0, hh0, hp, h, hscr, hdec, henc]

/-- After the scheme check passes, every remaining branch invokes the
capture backend with the parsed target. -/
theorem handler_pass_target (B : Backends) (cfg : Config) (r : Request) (u : GoURL)
    (h1 : trimSpace r.url ≠ "")
    (h2 : ¬(dim r.width > 0 ∧ dim r.height = 0))
    (h3 : ¬(dim r.height > 0 ∧ dim r.width = 0))
    (hp : B.parseURL (trimSpace r.url) = .ok u)
    (hpass : cfg.allowInsecureURIs = true ∨ strHasPre u.scheme "http" = true) :
    (handler B cfg r).captureInvoked = true ∧
      (handler B cfg r).captureTarget = some u := by
  rcases hscr : B.screenshot u with e | buf
  · rw [handler_scrErr B cfg r u e h1 h2 h3 hp hpass hscr]; exact ⟨rfl, rfl⟩
  · by_cases hw0 : dim r.width = 0
    · have hh0 : dim r.height = 0 := by
        rcases lt_or_eq_of_le (dim_nonneg r.height) with hlt | heq
        · exact absurd ⟨hlt, hw0⟩ h3
        · omega
      rw [handler_png B cfg r u buf h1 hw0 hh0 hp hpass hscr]; exact ⟨rfl, rfl⟩
    · have hwp : dim r.width > 0 := by
        have := dim_nonneg r.width; omega
      have hhp : dim r.height > 0 := by
        have := dim_nonneg r.height
        by_contra hc
        exact h2 ⟨hwp, by omega⟩
      rcases hdec : B.decode buf with e | img
      · rw [handler_decodeErr B cfg r u buf e h1 hwp hhp hp hpass hscr hdec]
        exact ⟨rfl, rfl⟩
      · rcases henc : B.encodeJPEG (B.fit img (dim r.width) (dim r.height)) with ⟨bs, oe⟩
        cases oe with
        | none =>
          rw [handler_jpegOk B cfg r u buf img bs h1 hwp hhp hp hpass hscr hdec henc]
          exact ⟨rfl, rfl⟩
        | some e =>
          rw [handler_jpegFail B cfg r u buf img bs e h1 hwp hhp hp hpass hscr hdec henc]
          exact ⟨rfl, rfl⟩

/-! ## Claims -/

/-- C1 (amended): in default (non-relaxed) mode, every URL handed to
the capture backend has a scheme that starts with the string "http" —
this covers "http" and "https" but also any other scheme beginning with
those four characters (e.g. "httpx") — and every request whose parsed
scheme does not start with "http" (in particular scheme "file") is
answered with status 406 and never reaches the capture backend. -/
theorem C1_scheme_allowlist (B : Backends) (cfg : Config) (r : Request)
    (hA : cfg.allowInsecureURIs = false) :
    (∀ u, (handler B cfg r).captureTarget = some u →
      strHasPre u.scheme "http" = true) ∧
    (∀ u, B.parseURL (trimSpace r.url) = .ok u →
      strHasPre u.scheme "http" = false →
      (handler B cfg r).rw.status = 406 ∧
        (handler B cfg r).captureInvoked = false) := by
  constructor
  · intro u hu
    by_cases h1 : trimSpace r.url = ""
    · rw [handler_blank B cfg r h1] at hu; simp at hu
    · by_cases h2 : dim r.width > 0 ∧ dim r.height = 0
      · rw [handler_widthNoHeight B cfg r h1 h2.1 h2.2] at hu; simp at hu
      · by_cases h3 : dim r.height > 0 ∧ dim r.width = 0
        · rw [handler_heightNoWidth B cfg r h1 h3.1 h3.2] at hu; simp at hu
        · rcases hp : B.parseURL (trimSpace r.url) with e | v
          · rw [handler_malformed B cfg r e h1 h2 h3 hp] at hu; simp at hu
          · by_cases hS : strHasPre v.scheme "http" = true
            · have hpt := handler_pass_target B cfg r v h1 h2 h3 hp (Or.inr hS)
              rw [hpt.2] at hu
              obtain rfl : v = u := by injection hu
              exact hS
            · have hS2 : strHasPre v.scheme "http" = false := by
                simpa using hS
              rw [handler_insecure B cfg r v h1 h2 h3 hp hA hS2] at hu
              simp at hu
  · intro u hp hS
    by_cases h1 : trimSpace r.url = ""
    · rw [handler_blank B cfg r h1]; exact ⟨rfl, rfl⟩
    · by_cases h2 : dim r.width > 0 ∧ dim r.height = 0
      · rw [handler_widthNoHeight B cfg r h1 h2.1 h2.2]; exact ⟨rfl, rfl⟩
      · by_cases h3 : dim r.height > 0 ∧ dim r.width = 0
        · rw [handler_heightNoWidth B cfg r h1 h3.1 h3.2]; exact ⟨rfl, rfl⟩
        · rw [handler_insecure B cfg r u h1 h2 h3 hp hA hS]; exact ⟨rfl, rfl⟩

/-- C1 counterexample: with the default configuration, the request
`?url=httpx://example.com` — whose parsed scheme is "httpx", which is
neither exactly "http" nor exactly "https" — reaches the capture
backend, because the code only checks `strings.HasPrefix(scheme,
"http")`. -/
theorem C1_counterexample :
    CfgDefault.allowInsecureURIs = false ∧
    (handler Bok CfgDefault ReqHttpx).captureInvoked = true ∧
    (handler Bok CfgDefault ReqHttpx).captureTarget =
      some ⟨"httpx", "//example.com"⟩ ∧
    ¬("httpx" = "http" ∨ "httpx" = "https") := by decide

/-- C1 witness: a `file`-scheme request in default mode is answered 406
and the capture backend is not invoked. -/
theorem C1_witness :
    (handler Bok CfgDefault ReqFile).rw.status = 406 ∧
    (handler Bok CfgDefault ReqFile).captureInvoked = false :=
  (C1_scheme_allowlist Bok CfgDefault ReqFile rfl).2
    ⟨"file", "///etc/passwd"⟩ rfl rfl

/-- C2 (amended): the handler sends exactly one HTTP response per
request (assuming the JPEG encoder never returns success without having
written output); every validation, capture and decode failure produces
one clean error response; a JPEG-encode failure, however, is not clean:
because the encoder streams straight into the response writer, any
partial image bytes it wrote stay in the body, the error text is
appended after them, and the already-sent 200/image-jpeg header stands —
only when the encoder fails before writing any byte does the handler
produce a clean 500 error response. -/
theorem C2_one_response (B : Backends) (cfg : Config) (r : Request)
    (hencNE : ∀ i, (B.encodeJPEG i).1 = [] → (B.encodeJPEG i).2 ≠ none) :
    (handler B cfg r).rw.sent = true ∧
    (∀ u buf img bs e,
      trimSpace r.url ≠ "" →
      dim r.width > 0 → dim r.height > 0 →
      B.parseURL (trimSpace r.url) = .ok u →
      (cfg.allowInsecureURIs = true ∨ strHasPre u.scheme "http" = true) →
      B.screenshot u = .ok buf →
      B.decode buf = .ok img →
      B.encodeJPEG (B.fit img (dim r.width) (dim r.height)) = (bs, some e) →
      (handler B cfg r).rw.body = bs ++ (strBytes e ++ [10]) ∧
        (bs ≠ [] → (handler B cfg r).rw.status = 200 ∧
          (handler B cfg r).rw.sentCT = "image/jpeg") ∧
        (bs = [] → isErrorResponse (handler B cfg r).rw e 500)) := by
  constructor
  · by_cases h1 : trimSpace r.url = ""
    · rw [handler_blank B cfg r h1]; rfl
    · by_cases h2 : dim r.width > 0 ∧ dim r.height = 0
      · rw [handler_widthNoHeight B cfg r h1 h2.1 h2.2]; rfl
      · by_cases h3 : dim r.height > 0 ∧ dim r.width = 0
        · rw [handler_heightNoWidth B cfg r h1 h3.1 h3.2]; rfl
        · rcases hp : B.parseURL (trimSpace r.url) with e | v
          · rw [handler_malformed B cfg r e h1 h2 h3 hp]; rfl
          · by_cases hpass : cfg.allowInsecureURIs = true ∨ strHasPre v.scheme "http" = true
            · rcases hscr : B.screenshot v with e | buf
              · rw [handler_scrErr B cfg r v e h1 h2 h3 hp hpass hscr]; rfl
              · by_cases hw0 : dim r.width = 0
                · have hh0 : dim r.height = 0 := by
                    rcases lt_or_eq_of_le (dim_nonneg r.height) with hlt | heq
                    · exact absurd ⟨hlt, hw0⟩ h3
                    · omega
                  rw [handler_png B cfg r v buf h1 hw0 hh0 hp hpass hscr]; rfl
                · have hwp : dim r.width > 0 := by
                    have := dim_nonneg r.width; omega
                  have hhp : dim r.height > 0 := by
                    have := dim_nonneg r.height
                    by_contra hc
                    exact h2 ⟨hwp, by omega⟩
                  rcases hdec : B.decode buf with e | img
                  · rw [handler_decodeErr B cfg r v buf e h1 hwp hhp hp hpass hscr hdec]
                    rfl
                  · rcases henc : B.encodeJPEG (B.fit img (dim r.width) (dim r.height))
                      with ⟨bs, oe⟩
                    cases oe with
                    | none =>
                      have hbs : bs ≠ [] := by
                        intro hnil
                        exact hencNE _ (by rw [henc, hnil]) (by rw [henc])
                      rw [handler_jpegOk B cfg r v buf img bs h1 hwp hhp hp hpass hscr
                        hdec henc]
                      simp [RW.writeAll, hbs, RW.write, RW.writeHeader, RW.setContentType,
                        RW.init]
                    | some e =>
                      rw [handler_jpegFail B cfg r v buf img bs e h1 hwp hhp hp hpass hscr
                        hdec henc]
                      by_cases hbs : bs = [] <;>
                        simp [RW.writeAll, hbs, httpError, RW.write, RW.writeHeader,
                          RW.setContentType, RW.init]
            · have hA : cfg.allowInsecureURIs = false := by
                rcases Bool.eq_false_or_eq_true cfg.allowInsecureURIs with h | h
                · exact absurd (Or.inl h) hpass
                · exact h
              have hS : strHasPre v.scheme "http" = false := by
                rcases Bool.eq_false_or_eq_true (strHasPre v.scheme "http") with h | h
                · exact absurd (Or.inr h) hpass
                · exact h
              rw [handler_insecure B cfg r v h1 h2 h3 hp hA hS]; rfl
  · intro u buf img bs e h1 hwp hhp hp hpass hscr hdec henc
    rw [handler_jpegFail B cfg r u buf img bs e h1 hwp hhp hp hpass hscr hdec henc]
    by_cases hbs : bs = []
    · subst hbs
      exact ⟨rfl, fun hc => absurd rfl hc, fun _ => ⟨rfl, rfl, rfl⟩⟩
    · refine ⟨?_, fun _ => ?_, fun hc => absurd hc hbs⟩
      · simp [RW.writeAll, hbs, httpError, RW.write, RW.writeHeader, RW.setContentType,
          RW.init]
      · constructor <;>
          simp [RW.writeAll, hbs, httpError, RW.write, RW.writeHeader, RW.setContentType,
            RW.init]

/-- C2 counterexample: with a JPEG encoder that writes two bytes and
then fails, the resized request `?url=https://example.com&width=200&height=100`
does not end in a clean error response: the partial image bytes precede
the error text in the body and the status is the already-sent 200, not
500. -/
theorem C2_counterexample :
    (handler Benc CfgDefault ReqResize).rw.status = 200 ∧
    (handler Benc CfgDefault ReqResize).rw.body =
      [9, 9] ++ (strBytes "jpeg: write failed" ++ [10]) ∧
    ¬ isErrorResponse (handler Benc CfgDefault ReqResize).rw "jpeg: write failed" 500 := by
  refine ⟨rfl, rfl, ?_⟩
  intro h
  exact absurd h.1 (by decide)

/-- C2 witness: the amended statement at the same concrete request —
one response is sent, and the body is the partial image bytes followed
by the error text. -/
theorem C2_witness :
    (handler Benc CfgDefault ReqResize).rw.sent = true ∧
    (handler Benc CfgDefault ReqResize).rw.body =
      [9, 9] ++ (strBytes "jpeg: write failed" ++ [10]) :=
  ⟨(C2_one_response Benc CfgDefault ReqResize (fun _ h => by simp [Benc, Bok] at h)).1,
   ((C2_one_response Benc CfgDefault ReqResize (fun _ h => by simp [Benc, Bok] at h)).2
      ⟨"https", "//example.com"⟩ [137, 80, 78, 71] 7 [9, 9] "jpeg: write failed"
      (by decide) (by decide) (by decide) rfl (Or.inr rfl) rfl rfl rfl).1⟩

/-- C3: when both dimensions defaulted to 0, a successful capture is
answered with Content-Type exactly "image/png", status 200, and a body
byte-for-byte equal to the capture backend's bytes (no decode or
re-encode is performed: the response does not depend on the decode, fit
or encode collaborators). -/
theorem C3_png_pass (B : Backends) (cfg : Config) (r : Request) (u : GoURL) (buf : Bytes)
    (h1 : trimSpace r.url ≠ "")
    (hw : dim r.width = 0) (hh : dim r.height = 0)
    (hp : B.parseURL (trimSpace r.url) = .ok u)
    (hpass : cfg.allowInsecureURIs = true ∨ strHasPre u.scheme "http" = true)
    (hscr : B.screenshot u = .ok buf) :
    (handler B cfg r).rw.sentCT = "image/png" ∧
    (handler B cfg r).rw.body = buf ∧
    (handler B cfg r).rw.status = 200 ∧
    (∀ dec2 fit2 enc2,
      handler { B with decode := dec2, fit := fit2, encodeJPEG := enc2 } cfg r =
        handler B cfg r) := by
  rw [handler_png B cfg r u buf h1 hw hh hp hpass hscr]
  refine ⟨rfl, rfl, rfl, ?_⟩
  intro dec2 fit2 enc2
  rw [handler_png { B with decode := dec2, fit := fit2, encodeJPEG := enc2 }
    cfg r u buf h1 hw hh hp hpass hscr]

/-- C3 witness: the PNG pass-through at a concrete request with no
dimension parameters. -/
theorem C3_witness :
    (handler Bok CfgDefault ReqPng).rw.sentCT = "image/png" ∧
    (handler Bok CfgDefault ReqPng).rw.body = [137, 80, 78, 71] ∧
    (handler Bok CfgDefault ReqPng).rw.status = 200 :=
  ⟨(C3_png_pass Bok CfgDefault ReqPng ⟨"https", "//example.com"⟩ [137, 80, 78, 71]
      (by decide) (by decide) (by decide) rfl (Or.inr rfl) rfl).1,
   (C3_png_pass Bok CfgDefault ReqPng ⟨"https", "//example.com"⟩ [137, 80, 78, 71]
      (by decide) (by decide) (by decide) rfl (Or.inr rfl) rfl).2.1,
   (C3_png_pass Bok CfgDefault ReqPng ⟨"https", "//example.com"⟩ [137, 80, 78, 71]
      (by decide) (by decide) (by decide) rfl (Or.inr rfl) rfl).2.2.1⟩

/-- C4: when exactly one dimension is effectively supplied, the
response status is 406 and the capture backend is never invoked; when
in addition the url parameter is non-blank (so the dimension rule is
the first failing rule), the body is exactly the message naming the
missing dimension. -/
theorem C4_dimension_mismatch (B : Backends) (cfg : Config) (r : Request) :
    (dim r.width > 0 → dim r.height = 0 →
      ((handler B cfg r).rw.status = 406 ∧
        (handler B cfg r).captureInvoked = false) ∧
      (trimSpace r.url ≠ "" →
        (handler B cfg r).rw.body = strBytes msgWidthNoHeight ++ [10])) ∧
    (dim r.height > 0 → dim r.width = 0 →
      ((handler B cfg r).rw.status = 406 ∧
        (handler B cfg r).captureInvoked = false) ∧
      (trimSpace r.url ≠ "" →
        (handler B cfg r).rw.body = strBytes msgHeightNoWidth ++ [10])) := by
  constructor
  · intro hw hh
    by_cases h1 : trimSpace r.url = ""
    · rw [handler_blank B cfg r h1]
      exact ⟨⟨rfl, rfl⟩, fun hc => absurd h1 hc⟩
    · rw [handler_widthNoHeight B cfg r h1 hw hh]
      exact ⟨⟨rfl, rfl⟩, fun _ => rfl⟩
  · intro hh hw
    by_cases h1 : trimSpace r.url = ""
    · rw [handler_blank B cfg r h1]
      exact ⟨⟨rfl, rfl⟩, fun hc => absurd h1 hc⟩
    · rw [handler_heightNoWidth B cfg r h1 hh hw]
      exact ⟨⟨rfl, rfl⟩, fun _ => rfl⟩

/-- C4 witness: `width=200` with no height is answered 406 with the
width-without-height message and no capture. -/
theorem C4_witness :
    (handler Bok CfgDefault ReqWidthOnly).rw.status = 406 ∧
    (handler Bok CfgDefault ReqWidthOnly).captureInvoked = false ∧
    (handler Bok CfgDefault ReqWidthOnly).rw.body =
      strBytes msgWidthNoHeight ++ [10] ∧
    (handler Bok CfgDefault ReqHeightOnly).rw.status = 406 ∧
    (handler Bok CfgDefault ReqHeightOnly).captureInvoked = false ∧
    (handler Bok CfgDefault ReqHeightOnly).rw.body =
      strBytes msgHeightNoWidth ++ [10] :=
  ⟨((C4_dimension_mismatch Bok CfgDefault ReqWidthOnly).1 (by decide) (by decide)).1.1,
   ((C4_dimension_mismatch Bok CfgDefault ReqWidthOnly).1 (by decide) (by decide)).1.2,
   ((C4_dimension_mismatch Bok CfgDefault ReqWidthOnly).1 (by decide) (by decide)).2
     (by decide),
   ((C4_dimension_mismatch Bok CfgDefault ReqHeightOnly).2 (by decide) (by decide)).1.1,
   ((C4_dimension_mismatch Bok CfgDefault ReqHeightOnly).2 (by decide) (by decide)).1.2,
   ((C4_dimension_mismatch Bok CfgDefault ReqHeightOnly).2 (by decide) (by decide)).2
     (by decide)⟩

/-- C5: validation applies in the fixed order blank-url, dimension
rules, URL parse, and the first failing rule determines the outcome: a
blank url is answered 406 with the missing-url message whatever else is
wrong; a dimension mismatch on a non-blank url is answered 406 with the
dimension message for every parse behaviour (in particular for urls
that do not parse, so 406 wins over 500); and a url that fails to parse
after the earlier rules pass is answered 500 with the parse error text.
-/
theorem C5_rule_order (B : Backends) (cfg : Config) (r : Request) :
    (trimSpace r.url = "" →
      isErrorResponse (handler B cfg r).rw msgMissingURL 406) ∧
    (trimSpace r.url ≠ "" → dim r.width > 0 → dim r.height = 0 →
      isErrorResponse (handler B cfg r).rw msgWidthNoHeight 406) ∧
    (trimSpace r.url ≠ "" → dim r.height > 0 → dim r.width = 0 →
      isErrorResponse (handler B cfg r).rw msgHeightNoWidth 406) ∧
    (∀ e, trimSpace r.url ≠ "" →
      ¬(dim r.width > 0 ∧ dim r.height = 0) →
      ¬(dim r.height > 0 ∧ dim r.width = 0) →
      B.parseURL (trimSpace r.url) = .error e →
      isErrorResponse (handler B cfg r).rw e 500) := by
  refine ⟨fun h1 => ?_, fun h1 hw hh => ?_, fun h1 hh hw => ?_, fun e h1 h2 h3 hp => ?_⟩
  · rw [handler_blank B cfg r h1]
    exact isErrorResponse_httpError_init _ _
  · rw [handler_widthNoHeight B cfg r h1 hw hh]
    exact isErrorResponse_httpError_init _ _
  · rw [handler_heightNoWidth B cfg r h1 hh hw]
    exact isErrorResponse_httpError_init _ _
  · rw [handler_malformed B cfg r e h1 h2 h3 hp]
    exact isErrorResponse_httpError_init _ _

/-- C5 witness: a request violating both the dimension rule and URL
parsing is answered 406 (the dimension message), and a request failing
only URL parsing is answered 500 with the parse error text. -/
theorem C5_witness :
    isErrorResponse (handler Bok CfgDefault ReqMalDims).rw msgWidthNoHeight 406 ∧
    isErrorResponse (handler Bok CfgDefault ReqMal).rw
      "parse \"http://[bad\": missing \x7d in host" 500 :=
  ⟨(C5_rule_order Bok CfgDefault ReqMalDims).2.1 (by decide) (by decide) (by decide),
   (C5_rule_order Bok CfgDefault ReqMal).2.2.2 _ (by decide) (by decide) (by decide) rfl⟩

/-- C6: a capture-backend failure on a validated request is answered
with status 500 and a body that is exactly the backend's error text
(plus the terminating newline) — no image bytes are written. -/
theorem C6_capture_error (B : Backends) (cfg : Config) (r : Request) (u : GoURL)
    (e : String)
    (h1 : trimSpace r.url ≠ "")
    (h2 : ¬(dim r.width > 0 ∧ dim r.height = 0))
    (h3 : ¬(dim r.height > 0 ∧ dim r.width = 0))
    (hp : B.parseURL (trimSpace r.url) = .ok u)
    (hpass : cfg.allowInsecureURIs = true ∨ strHasPre u.scheme "http" = true)
    (hscr : B.screenshot u = .error e) :
    isErrorResponse (handler B cfg r).rw e 500 ∧
    (handler B cfg r).captureInvoked = true := by
  rw [handler_scrErr B cfg r u e h1 h2 h3 hp hpass hscr]
  exact ⟨isErrorResponse_httpError_init _ _, rfl⟩

/-- C6 witness: a failing capture backend at a concrete validated
request. -/
theorem C6_witness :
    isErrorResponse (handler Bscr CfgDefault ReqPng).rw "chrome exited: crashed" 500 ∧
    (handler Bscr CfgDefault ReqPng).captureInvoked = true :=
  C6_capture_error Bscr CfgDefault ReqPng ⟨"https", "//example.com"⟩
    "chrome exited: crashed" (by decide) (by decide) (by decide) rfl (Or.inr rfl) rfl

/-- C7: with relaxed mode enabled no scheme filtering occurs — every
request whose url parses and whose dimensions validate invokes the
capture backend with the parsed target, whatever its scheme. -/
theorem C7_relaxed_no_filtering (B : Backends) (cfg : Config) (r : Request) (u : GoURL)
    (hA : cfg.allowInsecureURIs = true)
    (h1 : trimSpace r.url ≠ "")
    (h2 : ¬(dim r.width > 0 ∧ dim r.height = 0))
    (h3 : ¬(dim r.height > 0 ∧ dim r.width = 0))
    (hp : B.parseURL (trimSpace r.url) = .ok u) :
    (handler B cfg r).captureInvoked = true ∧
      (handler B cfg r).captureTarget = some u :=
  handler_pass_target B cfg r u h1 h2 h3 hp (Or.inl hA)

/-- C7 witness: in relaxed mode a `file`-scheme target reaches the
capture backend. -/
theorem C7_witness :
    (handler Bok CfgRelax ReqFile).captureInvoked = true ∧
    (handler Bok CfgRelax ReqFile).captureTarget =
      some ⟨"file", "///etc/passwd"⟩ :=
  C7_relaxed_no_filtering Bok CfgRelax ReqFile ⟨"file", "///etc/passwd"⟩
    rfl (by decide) (by decide) (by decide) rfl

/-- C8: the width and height parameters are parsed independently; a
parse failure or a non-positive parsed value makes the effective
dimension 0 rather than an error, and two requests whose dimension
parameters have the same effective values behave identically — in
particular `width=abc&height=xyz` behaves exactly like no dimensions at
all. -/
theorem C8_lenient_dims (B : Backends) (cfg : Config) :
    (∀ s, atoi s = none → dim s = 0) ∧
    (∀ s n, atoi s = some n → n ≤ 0 → dim s = 0) ∧
    (∀ u wS hS wS2 hS2, dim wS = dim wS2 → dim hS = dim hS2 →
      handler B cfg ⟨u, wS, hS⟩ = handler B cfg ⟨u, wS2, hS2⟩) := by
  refine ⟨fun s h => ?_, fun s n h hle => ?_, fun u wS hS wS2 hS2 hw hh => ?_⟩
  · simp [dim, h]
  · simp [dim, h, show n < 1 by omega]
  · simp only [handler]
    rw [hw, hh]

/-- C8 witness: `width=abc&height=xyz` (both unparseable, hence
effective value 0) gives exactly the same handler result as absent
dimension parameters; also `atoi` failure and a non-positive parse both
default to 0. -/
theorem C8_witness :
    dim "abc" = 0 ∧ dim "-3" = 0 ∧
    handler Bok CfgDefault ⟨"https://example.com", "abc", "xyz"⟩ =
      handler Bok CfgDefault ⟨"https://example.com", "", ""⟩ :=
  ⟨(C8_lenient_dims Bok CfgDefault).1 "abc" (by decide),
   (C8_lenient_dims Bok CfgDefault).2.1 "-3" (-3) (by decide) (by decide),
   (C8_lenient_dims Bok CfgDefault).2.2 "https://example.com" "abc" "xyz" "" ""
     (by decide) (by decide)⟩

/-- C9: a request whose url parameter is empty or whitespace-only is
answered 406 with the guidance message, the capture backend is not
invoked, and no further processing occurs — the result does not depend
on the backends, the configuration, or the dimension parameters. -/
theorem C9_blank_url (B : Backends) (cfg : Config) (r : Request)
    (h1 : trimSpace r.url = "") :
    isErrorResponse (handler B cfg r).rw msgMissingURL 406 ∧
    (handler B cfg r).captureInvoked = false ∧
    (∀ B2 cfg2, handler B cfg r = handler B2 cfg2 r) ∧
    (∀ w2 h2, handler B cfg r = handler B cfg ⟨r.url, w2, h2⟩) := by
  refine ⟨?_, ?_, fun B2 cfg2 => ?_, fun w2 h2 => ?_⟩
  · rw [handler_blank B cfg r h1]
    exact isErrorResponse_httpError_init _ _
  · rw [handler_blank B cfg r h1]
  · rw [handler_blank B cfg r h1, handler_blank B2 cfg2 r h1]
  · rw [handler_blank B cfg r h1, handler_blank B cfg ⟨r.url, w2, h2⟩ h1]

/-- C9 witness: a whitespace-only url with dimension parameters present
is answered 406 with the guidance message and no capture. -/
theorem C9_witness :
    isErrorResponse (handler Bok CfgDefault ReqBlank).rw msgMissingURL 406 ∧
    (handler Bok CfgDefault ReqBlank).captureInvoked = false ∧
    handler Bok CfgDefault ReqBlank = handler Bscr CfgRelax ReqBlank :=
  ⟨(C9_blank_url Bok CfgDefault ReqBlank (by decide)).1,
   (C9_blank_url Bok CfgDefault ReqBlank (by decide)).2.1,
   (C9_blank_url Bok CfgDefault ReqBlank (by decide)).2.2.1 Bscr CfgRelax⟩

/-- C10: a url that parses successfully but with an empty scheme is, in
default mode, rejected with 406 as an insecure scheme (never the 500
malformed-URL outcome), and the 500-before-capture outcome — the
malformed-URL branch — is reachable only when the URL parser actually
rejected the input. -/
theorem C10_empty_scheme (B : Backends) (cfg : Config) (r : Request) :
    (∀ u, cfg.allowInsecureURIs = false →
      trimSpace r.url ≠ "" →
      ¬(dim r.width > 0 ∧ dim r.height = 0) →
      ¬(dim r.height > 0 ∧ dim r.width = 0) →
      B.parseURL (trimSpace r.url) = .ok u →
      u.scheme = "" →
      isErrorResponse (handler B cfg r).rw msgInsecure 406 ∧
        (handler B cfg r).captureInvoked = false) ∧
    ((handler B cfg r).rw.status = 500 →
      (handler B cfg r).captureInvoked = false →
      ∃ e, B.parseURL (trimSpace r.url) = .error e) := by
  constructor
  · intro u hA h1 h2 h3 hp hsch
    have hS : strHasPre u.scheme "http" = false := by rw [hsch]; rfl
    rw [handler_insecure B cfg r u h1 h2 h3 hp hA hS]
    exact ⟨isErrorResponse_httpError_init _ _, rfl⟩
  · intro h5 hinv
    by_cases h1 : trimSpace r.url = ""
    · rw [handler_blank B cfg r h1] at h5
      exact absurd h5 (by decide)
    · by_cases h2 : dim r.width > 0 ∧ dim r.height = 0
      · rw [handler_widthNoHeight B cfg r h1 h2.1 h2.2] at h5
        exact absurd h5 (by decide)
      · by_cases h3 : dim r.height > 0 ∧ dim r.width = 0
        · rw [handler_heightNoWidth B cfg r h1 h3.1 h3.2] at h5
          exact absurd h5 (by decide)
        · rcases hp : B.parseURL (trimSpace r.url) with e | v
          · exact ⟨e, rfl⟩
          · by_cases hpass : cfg.allowInsecureURIs = true ∨ strHasPre v.scheme "http" = true
            · have hpt := handler_pass_target B cfg r v h1 h2 h3 hp hpass
              rw [hpt.1] at hinv
              exact absurd hinv (by decide)
            · have hA : cfg.allowInsecureURIs = false := by
                rcases Bool.eq_false_or_eq_true cfg.allowInsecureURIs with h | h
                · exact absurd (Or.inl h) hpass
                · exact h
              have hS : strHasPre v.scheme "http" = false := by
                rcases Bool.eq_false_or_eq_true (strHasPre v.scheme "http") with h | h
                · exact absurd (Or.inr h) hpass
                · exact h
              rw [handler_insecure B cfg r v h1 h2 h3 hp hA hS] at h5
              exact absurd h5 (by decide)

/-- C10 witness: `?url=google.com` (parsed with empty scheme) in
default mode is answered 406 with the insecure-scheme message, not 500,
and without invoking the capture backend. -/
theorem C10_witness :
    isErrorResponse (handler Bok CfgDefault ReqNoScheme).rw msgInsecure 406 ∧
    (handler Bok CfgDefault ReqNoScheme).captureInvoked = false :=
  (C10_empty_scheme Bok CfgDefault ReqNoScheme).1 ⟨"", "google.com"⟩
    rfl (by decide) (by decide) (by decide) rfl rfl

end Gowitness
